import Mathlib

/-!
Shallow embedding of `src/daily_sync.py`, a one-way rclone-based directory
synchronizer.  External collaborators (rclone subprocess calls, the
filesystem-backed cache, the wall clock) are modelled by an explicit
environment `Env` of oracle functions; the cache artifacts, the operation
counters and the log are threaded through an explicit `RunState`.  Every
function mirrors the corresponding Python function of the source and keeps
its name.  Python floats are idealised as rationals (exactness is argued at
each use site); debug/progress log lines are omitted, only the
info/warning/error lines at decision points are kept.
-/

/-- RemoteFileEntry: the fields of an rclone listing item that
`daily_sync.py` reads: `Path`, `Size`, `Hashes.md5` (the empty string when
absent, mirroring the chained `.get` defaults at line 168/175), `IsDir`. -/
structure Entry where
  Path : String
  Size : Nat
  md5 : String
  IsDir : Bool
deriving DecidableEq, Repr

/-- Counters of external rclone invocations performed so far:
`listings` counts `rclone.ls`/`lsf` style calls (existence probes, full
listings and per-file source checks), `copies` counts `rclone copyto`
invocations, `deletes` counts `rclone delete`, `hashes` counts
`rclone hashsum`. -/
structure Counts where
  listings : Nat
  copies : Nat
  deletes : Nat
  hashes : Nat
deriving DecidableEq, Repr

/-- Log severity levels used by the script (debug lines are omitted from the
model). -/
inductive Lvl
  | info
  | warning
  | error
deriving DecidableEq, Repr

/-- The filesystem cache directory: snapshot artifacts
(`{digest}_{role}_{day}.json`) and plan artifacts
(`sync_list_{digest}_{day}.json`), as association lists keyed by file
name.  Fresh writes are prepended; `List.lookup` returns the first (hence
an existing same-day artifact is never overwritten). -/
structure Cache where
  snaps : List (String × List Entry)
  plans : List (String × List Entry)
deriving DecidableEq, Repr

/-- Mutable state of one `sync_files` invocation: the cache directory, the
external-call counters, the log, and the index of the next `datetime.now()`
reading. -/
structure RunState where
  cache : Cache
  counts : Counts
  logs : List (Lvl × String)
  tick : Nat
deriving DecidableEq, Repr

def RunState.incListings (st : RunState) : RunState :=
  { st with counts := { st.counts with listings := st.counts.listings + 1 } }

def RunState.incCopies (st : RunState) : RunState :=
  { st with counts := { st.counts with copies := st.counts.copies + 1 } }

def RunState.incDeletes (st : RunState) : RunState :=
  { st with counts := { st.counts with deletes := st.counts.deletes + 1 } }

def RunState.incHashes (st : RunState) : RunState :=
  { st with counts := { st.counts with hashes := st.counts.hashes + 1 } }

def RunState.logInfo (st : RunState) (m : String) : RunState :=
  { st with logs := (Lvl.info, m) :: st.logs }

def RunState.logWarn (st : RunState) (m : String) : RunState :=
  { st with logs := (Lvl.warning, m) :: st.logs }

def RunState.logError (st : RunState) (m : String) : RunState :=
  { st with logs := (Lvl.error, m) :: st.logs }

def RunState.nextTick (st : RunState) : RunState :=
  { st with tick := st.tick + 1 }

def RunState.putSnap (st : RunState) (k : String) (v : List Entry) : RunState :=
  { st with cache := { st.cache with snaps := (k, v) :: st.cache.snaps } }

def RunState.putPlan (st : RunState) (k : String) (v : List Entry) : RunState :=
  { st with cache := { st.cache with plans := (k, v) :: st.cache.plans } }

/-- State at process start: empty cache directory, no calls made, no logs;
tick 1 because `datetime.now()` reading number 0 is consumed at line 233 to
compute the stop deadline. -/
def RunState.init : RunState :=
  { cache := ⟨[], []⟩, counts := ⟨0, 0, 0, 0⟩, logs := [], tick := 1 }

/-- Python `datetime` value reduced to the components the script compares:
the calendar day (as an abstract integer) and the minute of that day. -/
structure PyTime where
  day : Int
  minute : Nat
deriving DecidableEq, Repr

/-- Model of `now.replace(hour=23, minute=0, second=0, microsecond=0)`
(line 233): same day, 23:00. -/
def replace23 (t : PyTime) : PyTime := ⟨t.day, 23 * 60⟩

/-- Chronological order on `PyTime`: lexicographic on (day, minute). -/
def PyTime.le (a b : PyTime) : Prop :=
  a.day < b.day ∨ (a.day = b.day ∧ a.minute ≤ b.minute)

instance (a b : PyTime) : Decidable (PyTime.le a b) :=
  inferInstanceAs (Decidable (_ ∨ _))

/-- Outcome of `rclone about remote: --json` as consumed at lines 210-219:
either a parsed payload with integer `total` and `free` fields, a
`CalledProcessError`, or a malformed payload (missing field, bad numeric
encoding, undecodable JSON). -/
inductive AboutRes
  | ok (total free : Int)
  | runErr (stderr : String)
  | payloadErr (msg : String)
deriving DecidableEq, Repr

/-- Oracles for the external collaborators of `daily_sync.py`.
`clock k` is the value of the k-th `datetime.datetime.now()` call.
`probe p` tells whether `rclone.ls(p, max_depth=1)` succeeds
(`check_remote_exists`).  `listing p` is the result of a full
`rclone.ls(p)` call, `none` meaning the call raised.  `copy src dst k`
is the outcome of the (k-th for this file) `rclone copyto` invocation:
a success flag and, on failure, the error text built at line 133.
`hash p k` is the k-th `rclone hashsum md5 p` result (`none` when the
subprocess failed or printed nothing).  `del p` tells whether
`rclone delete p` succeeded.  The per-path attempt index `k` models that
distinct temporal invocations of the same subprocess may differ. -/
structure Env where
  today : String
  clock : Nat → PyTime
  probe : String → Bool
  listing : String → Option (List Entry)
  about : String → AboutRes
  copy : String → String → Nat → Bool × String
  hash : String → Nat → Option String
  del : String → Bool

/-- Modelled: `sanitize_path` (line 40) is `hashlib.md5(path).hexdigest()`,
an injective content digest of the path string; the digest is idealised as
the identity embedding (md5 is collision-free on the inputs considered). -/
def sanitize_path (remote_path : String) : String := remote_path

/-- Snapshot cache artifact name (line 56-58). -/
def snapKey (remote_path : String) (is_src : Bool) (today : String) : String :=
  sanitize_path remote_path ++ "_" ++ (if is_src then "source" else "dest") ++
    "_" ++ today ++ ".json"

/-- Plan cache artifact name (line 148).  Note that the destination does
not occur in the name: the key depends on the source and the day only. -/
def planKey (source today : String) : String :=
  "sync_list_" ++ sanitize_path source ++ "_" ++ today ++ ".json"

/-- Python `str.lower()`. -/
def lowerStr (s : String) : String := ⟨s.toList.map Char.toLower⟩

/-- Occurrence test of `needle` as a contiguous run inside `hay`. -/
def subOccurs (needle : List Char) : List Char → Bool
  | [] => needle.isEmpty
  | c :: t => needle.isPrefixOf (c :: t) || subOccurs needle t

/-- Python substring test `needle in hay`. -/
def strContains (hay needle : String) : Bool :=
  subOccurs needle.toList hay.toList

/-- Model of `is_quota_exceeded` (lines 103-105): case-insensitive
substring match of the fixed quota/rate-limit indicator list. -/
def is_quota_exceeded (error_msg : String) : Bool :=
  ["quotaExceeded", "userRateLimitExceeded", "403", "429", "Rate Limit"].any
    (fun k => strContains (lowerStr error_msg) (lowerStr k))

/-- Model of `check_remote_exists` (lines 43-51): one `rclone.ls`
invocation; on exception log an error and report `False`. -/
def check_remote_exists (env : Env) (st : RunState) (remote_path : String) :
    Bool × RunState :=
  let st1 := st.incListings
  if env.probe remote_path then (true, st1)
  else (false, st1.logError ("missing or error checking: " ++ remote_path))

/-- Model of `get_cached_files` (lines 53-86): same-day artifact lookup,
existence probe, role-dependent handling of a missing tree, full listing
with directory entries filtered out, artifact write on successful listing,
listing exception downgraded to an empty result. -/
def get_cached_files (env : Env) (st : RunState) (remote_path : String)
    (is_src : Bool) : List Entry × RunState :=
  let cache_file := snapKey remote_path is_src env.today
  match st.cache.snaps.lookup cache_file with
  | some files => (files, st.logInfo ("using cache " ++ cache_file))
  | none =>
    match check_remote_exists env st remote_path with
    | (true, st1) =>
      let st2 := st1.incListings
      match env.listing remote_path with
      | some items =>
        let files := items.filter (fun it => !it.IsDir)
        (files, st2.putSnap cache_file files)
      | none => ([], st2.logError ("listing error: " ++ remote_path))
    | (false, st1) =>
      if is_src then
        ([], st1.logError ("skip sync, source tree missing: " ++ remote_path))
      else
        ([], (st1.logInfo ("destination tree missing, empty cache: " ++ remote_path)).putSnap
          cache_file [])

/-- Model of `delete_file` (lines 135-144): one `rclone delete`
invocation; a failure is logged as a warning and reported as `False`. -/
def delete_file (env : Env) (st : RunState) (remote_path : String) :
    Bool × RunState :=
  let st1 := st.incDeletes
  if env.del remote_path then (true, st1)
  else (false, st1.logWarn ("cannot delete file " ++ remote_path))

/-- Python dict lookup in `dest_files_dict` (line 164): the comprehension
keeps the last entry for a duplicated path. -/
def lookupDict (destFiles : List Entry) (p : String) : Option Entry :=
  (destFiles.filter (fun f => f.Path == p)).getLast?

/-- The per-entry condition of the diff loop (lines 166-182): copy when the
path is absent from the destination, or present with both md5 hashes
non-empty and unequal. -/
def wantsCopy (destFiles : List Entry) (e : Entry) : Bool :=
  match lookupDict destFiles e.Path with
  | some d => e.md5 != "" && d.md5 != "" && e.md5 != d.md5
  | none => true

/-- The diff loop of `get_files_to_copy` (lines 166-182): walk the source
entries in listing order; on a hash mismatch eagerly delete the stale
destination file (the result of the deletion is ignored) and schedule the
entry; on an absent path schedule the entry; otherwise skip it. -/
def diffLoop (env : Env) (destination : String) (destFiles : List Entry) :
    List Entry → RunState → List Entry × RunState
  | [], st => ([], st)
  | e :: rest, st =>
    match lookupDict destFiles e.Path with
    | some d =>
      if e.md5 != "" && d.md5 != "" && e.md5 != d.md5 then
        let r0 := delete_file env st (destination ++ "/" ++ e.Path)
        let r := diffLoop env destination destFiles rest r0.2
        (e :: r.1, r.2)
      else
        diffLoop env destination destFiles rest st
    | none =>
      let r := diffLoop env destination destFiles rest st
      (e :: r.1, r.2)

/-- Tail of `get_files_to_copy` (lines 160-188): fetch the destination
snapshot, run the diff loop, persist the resulting plan under the
source-keyed artifact name, return it. -/
def diffAndSave (env : Env) (st : RunState) (source destination : String)
    (source_files : List Entry) : List Entry × RunState :=
  let r2 := get_cached_files env st destination false
  let r3 := diffLoop env destination r2.1 source_files r2.2
  (r3.1, r3.2.putPlan (planKey source env.today) r3.1)

/-- Model of `get_files_to_copy` (lines 146-188): same-day plan-artifact
lookup (keyed by source and day only), source snapshot fetch, the guard
`if not source_files and not check_remote_exists(source)` (with Python
short-circuiting: the extra existence probe runs only when the source
snapshot is empty), then diff and persist. -/
def get_files_to_copy (env : Env) (st : RunState) (source destination : String) :
    List Entry × RunState :=
  let cache_file := planKey source env.today
  match st.cache.plans.lookup cache_file with
  | some plan => (plan, st.logInfo ("using plan cache " ++ cache_file))
  | none =>
    let r1 := get_cached_files env st source true
    if r1.1 = [] then
      match check_remote_exists env r1.2 source with
      | (false, stB) => ([], stB.logError ("no files to sync from " ++ source))
      | (true, stB) => diffAndSave env stB source destination r1.1
    else
      diffAndSave env r1.2 source destination r1.1

/-- Model of `run_rclone_copy` (lines 127-133): one `rclone copyto`
invocation; the oracle supplies the success flag and the error text. -/
def run_rclone_copy (env : Env) (st : RunState) (src_path dest_path : String)
    (attempt : Nat) : (Bool × String) × RunState :=
  (env.copy src_path dest_path attempt, st.incCopies)

/-- Model of `get_file_hash` (lines 88-101): one `rclone hashsum md5`
invocation; `none` when the subprocess failed or printed nothing. -/
def get_file_hash (env : Env) (st : RunState) (remote_path : String)
    (attempt : Nat) : Option String × RunState :=
  (env.hash remote_path attempt, st.incHashes)

/-- Python truthiness of an `Optional[str]` hash value: `None` and the
empty string are falsy. -/
def hashTruthy : Option String → Bool
  | some h => h != ""
  | none => false

/-- The guard `if src_hash and dest_hash and src_hash == dest_hash`
(lines 312 and 325). -/
def hashesMatch (a b : Option String) : Bool :=
  hashTruthy a && hashTruthy b && a == b

/-- Classified outcome of one file attempt of the copy/verify block. -/
inductive CopyOutcome
  | verified
  | verifyFailed
  | failedQuota
  | failedOther
deriving DecidableEq, Repr

/-- The copy/verify/retry block of the file loop (lines 307-340): copy; on
success hash both sides; on mismatch delete the destination copy and, only
if the deletion succeeded, retry the copy exactly once and re-verify; on
initial copy failure classify the error text against the quota
indicators.  A retry-copy failure is only logged (no quota
classification). -/
def attemptCopy (env : Env) (st : RunState) (src_path dest_path : String) :
    CopyOutcome × RunState :=
  let r1 := run_rclone_copy env st src_path dest_path 0
  if r1.1.1 then
    let h1 := get_file_hash env r1.2 src_path 0
    let h2 := get_file_hash env h1.2 dest_path 0
    if hashesMatch h1.1 h2.1 then (.verified, h2.2)
    else
      let d := delete_file env (h2.2.logError ("hash mismatch: " ++ src_path)) dest_path
      if d.1 then
        let r2 := run_rclone_copy env d.2 src_path dest_path 1
        if r2.1.1 then
          let h3 := get_file_hash env r2.2 src_path 1
          let h4 := get_file_hash env h3.2 dest_path 1
          if hashesMatch h3.1 h4.1 then (.verified, h4.2)
          else (.verifyFailed, h4.2.logError ("retry failed, hash still differs: " ++ src_path))
        else (.verifyFailed, r2.2.logError ("error on retry copy: " ++ src_path))
      else (.verifyFailed, d.2.logWarn ("cannot delete bad copy: " ++ dest_path))
  else
    if is_quota_exceeded r1.1.2 then
      (.failedQuota, r1.2.logError ("stop, quota exceeded: " ++ r1.1.2))
    else (.failedOther, r1.2.logError ("copy error: " ++ r1.1.2))

/-- Model of `extract_remote_name` (lines 199-205): the portion of the
path before the first colon; raises `ValueError` when no colon occurs. -/
def extract_remote_name (remote_path : String) : Except String String :=
  if remote_path.toList.contains ':' then
    Except.ok ⟨remote_path.toList.takeWhile (fun c => c != ':')⟩
  else Except.error "invalid string: missing colon separator"

/-- The Python tuple returned by
`get_gdrive_free_space_percent_from_path`: a 3-tuple
`(True, percent, free)` on success, a 2-tuple `(False, message)` on each
failure branch (lines 207-227). -/
inductive CapRet
  | triple (success : Bool) (percent : ℚ) (free : Int)
  | pair (success : Bool) (msg : String)
deriving DecidableEq, Repr

/-- Model of `get_gdrive_free_space_percent_from_path` (lines 207-227):
extract the remote name, run `rclone about --json`, parse `total` and
`free`, compute `free / total * 100` (0 when `total` is not positive);
each failure is converted into a `(False, message)` pair.  The float
percentage is idealised as the exact rational `free / total * 100`. -/
def get_gdrive_free_space_percent_from_path (env : Env) (remote_path : String) :
    CapRet :=
  match extract_remote_name remote_path with
  | .error ve => .pair false ("input string error: " ++ ve)
  | .ok remote =>
    match env.about remote with
    | .runErr e => .pair false ("rclone run error: " ++ e)
    | .payloadErr e => .pair false ("JSON data error: " ++ e)
    | .ok total free =>
      .triple true (if 0 < total then (free : ℚ) / (total : ℚ) * 100 else 0) free

/-- The tuple unpacking at line 249,
`success, percent, free_space = get_gdrive_free_space_percent_from_path(destination)`:
unpacking a 2-tuple into three names raises `ValueError`. -/
def unpack3 : CapRet → Except String (Bool × ℚ × Int)
  | .triple a b c => Except.ok (a, b, c)
  | .pair _ _ =>
      Except.error "ValueError: not enough values to unpack (expected 3, got 2)"

/-- Configured byte cap: the guard
`total_size_copied / (1024 ** 3) >= CONFIG["MAX_TRANSFER_GB"]` (line 282)
with `MAX_TRANSFER_GB = 500`.  For non-negative integer byte counts below
2^53 the float comparison `s / 2^30 >= 500` agrees exactly with the
integer comparison `s >= 500 * 2^30` (the quotient is at least 2^-30 away
from 500 whenever it is not exactly 500, far beyond the rounding error of
one double division), so the guard is embedded as this integer bound. -/
def MAX_TRANSFER_BYTES : Nat := 500 * 1024 ^ 3

/-- Terminal condition of the per-file loop of `sync_files`. -/
inductive RunExit
  | finished
  | deadline
  | volumeCap
  | quota
deriving DecidableEq, Repr

/-- The per-file loop of `sync_files` (lines 274-340): for each planned
entry read the clock and stop at the deadline; stop at the byte cap; skip
the file when the free-byte reading taken at the start of the pair (the
`free_space` parameter, never refreshed) is insufficient; check that the
source file still exists (skip on absence or probe exception); then run
the copy/verify block; a verified copy bumps the totals, a quota-classified
initial copy failure ends the whole run, everything else skips the file. -/
def fileLoop (env : Env) (stopT : PyTime) (source destination : String)
    (free_space : Int) :
    List Entry → Nat → Nat → RunState → RunExit × Nat × Nat × RunState
  | [], c, s, st => (.finished, c, s, st)
  | f :: rest, c, s, st =>
    let now := env.clock st.tick
    let st1 := st.nextTick
    if PyTime.le stopT now then (.deadline, c, s, st1)
    else if MAX_TRANSFER_BYTES ≤ s then (.volumeCap, c, s, st1)
    else
      let src_path := source ++ "/" ++ f.Path
      let dest_path := destination ++ "/" ++ f.Path
      if free_space < (s : Int) + (f.Size : Int) then
        fileLoop env stopT source destination free_space rest c s
          (st1.logError ("not enough free space for " ++ f.Path))
      else
        let st2 := st1.incListings
        match env.listing src_path with
        | none =>
          fileLoop env stopT source destination free_space rest c s
            (st2.logError ("error checking source file " ++ src_path))
        | some items =>
          if items = [] then
            fileLoop env stopT source destination free_space rest c s
              (st2.logError ("source file missing: " ++ src_path))
          else
            let r := attemptCopy env st2 src_path dest_path
            match r.1 with
            | .verified =>
              fileLoop env stopT source destination free_space rest (c + 1)
                (s + f.Size) r.2
            | .failedQuota => (.quota, c, s, r.2)
            | _ => fileLoop env stopT source destination free_space rest c s r.2

/-- The pair loop of `sync_files` (lines 246-342): for each configured
(source, destination) pair, query the capacity monitor and unpack its
tuple (a failing query returns a 2-tuple, so the unpacking raises, modelled
by the `Except.error` result), skip the pair below 2 percent free space,
skip it when the source tree is absent, fetch the plan, log why an empty
plan is empty (re-reading the source snapshot), and otherwise run the file
loop; a non-`finished` exit of the file loop ends the whole run with the
accumulated totals. -/
def processPairs (env : Env) (stopT : PyTime) :
    List (String × String) → Nat → Nat → RunState →
      Except String (RunExit × Nat × Nat × RunState)
  | [], c, s, st => .ok (.finished, c, s, st)
  | (source, destination) :: rest, c, s, st =>
    match unpack3 (get_gdrive_free_space_percent_from_path env destination) with
    | .error e => .error e
    | .ok (success, percent, free_space) =>
      if success = false then
        processPairs env stopT rest c s
          (st.logError ("cannot read free space of " ++ destination))
      else if percent < 2 then
        processPairs env stopT rest c s
          (st.logError ("free space below 2 percent on " ++ destination))
      else
        match check_remote_exists env st source with
        | (false, st1) =>
          processPairs env stopT rest c s
            (st1.logError ("skip sync, source tree missing: " ++ source))
        | (true, st1) =>
          let r := get_files_to_copy env st1 source destination
          if r.1 = [] then
            let r2 := get_cached_files env r.2 source true
            let st3 :=
              if r2.1 = [] then r2.2.logError ("cannot list files from " ++ source)
              else r2.2.logInfo ("nothing to copy from " ++ source)
            processPairs env stopT rest c s st3
          else
            match fileLoop env stopT source destination free_space r.1 c s r.2 with
            | (.finished, c2, s2, st2) => processPairs env stopT rest c2 s2 st2
            | (e2, c2, s2, st2) => .ok (e2, c2, s2, st2)

/-! Concrete fixtures used by the counterexamples and witnesses below. -/

/-- Sample file entry. -/
def fA : Entry := ⟨"A.mkv", 10, "h1", false⟩

/-- Sample file entry. -/
def fB : Entry := ⟨"B.mkv", 7, "hB", false⟩

/-- Sample file entry. -/
def fC : Entry := ⟨"C.mkv", 5, "hC", false⟩

/-- Sample destination entry sharing `fB`'s path with a different hash. -/
def fBstale : Entry := ⟨"B.mkv", 7, "old", false⟩

/-- Sample source entry with unknown (empty) hash. -/
def eU : Entry := ⟨"U.mkv", 3, "", false⟩

/-- Sample destination entry sharing `eU`'s path with a known hash. -/
def dU : Entry := ⟨"U.mkv", 3, "hU", false⟩

/-- Environment of a small healthy world: source `src:a` holds `fA`,
destination `d1:a` is empty, destination `d2:a` already holds `fA`
verbatim; copies succeed and hashes agree. -/
def envC2 : Env :=
  { today := "2024-01-01"
    clock := fun _ => ⟨0, 0⟩
    probe := fun _ => true
    listing := fun p =>
      if p = "src:a" then some [fA]
      else if p = "d1:a" then some []
      else if p = "d2:a" then some [fA] else none
    about := fun _ => .ok 1000 500
    copy := fun _ _ _ => (true, "")
    hash := fun _ _ => some "h1"
    del := fun _ => true }

/-- Environment in which every initial copy succeeds with mismatching
hashes for `B.mkv`, the destination delete succeeds, and every retry copy
fails with a quota-indicating error text. -/
def envC3 : Env :=
  { today := "2024-01-01"
    clock := fun _ => ⟨0, 0⟩
    probe := fun _ => true
    listing := fun p =>
      if p = "s:a/B.mkv" then some [fB]
      else if p = "s:a/C.mkv" then some [fC] else none
    about := fun _ => .ok 1000 500
    copy := fun _ _ n =>
      if n = 0 then (true, "") else (false, "Exit code 1: 403 Forbidden")
    hash := fun p _ =>
      if p = "s:a/B.mkv" then some "x"
      else if p = "d:a/B.mkv" then some "y" else some "z"
    del := fun _ => true }

/-- Environment like `envC3` but with every copy attempt failing with a
rate-limit error text. -/
def envC3b : Env :=
  { envC3 with copy := fun _ _ _ => (false, "Failed: userRateLimitExceeded") }

/-- Environment in which the copy succeeds, verification hashes mismatch,
and the destination delete fails. -/
def envC5 : Env :=
  { today := "2024-01-01"
    clock := fun _ => ⟨0, 0⟩
    probe := fun _ => true
    listing := fun p => if p = "s:a/B.mkv" then some [fB] else none
    about := fun _ => .ok 1000 500
    copy := fun _ _ _ => (true, "")
    hash := fun p _ => if p = "s:a/B.mkv" then some "x" else some "y"
    del := fun _ => false }

/-- Environment whose remote trees are all absent. -/
def envC7 : Env :=
  { today := "2024-01-01"
    clock := fun _ => ⟨0, 0⟩
    probe := fun _ => false
    listing := fun _ => none
    about := fun _ => .ok 1000 500
    copy := fun _ _ _ => (true, "")
    hash := fun _ _ => some "h1"
    del := fun _ => true }

/-- Environment whose destination reports 1.5 percent free space. -/
def envC8 : Env :=
  { today := "2024-01-01"
    clock := fun _ => ⟨0, 0⟩
    probe := fun _ => true
    listing := fun p => if p = "src:a" then some [fA] else some []
    about := fun _ => .ok 1000 15
    copy := fun _ _ _ => (true, "")
    hash := fun _ _ => some "h1"
    del := fun _ => true }

/-- Environment of an invocation started at 23:20: every clock reading is
past the 23:00 deadline; source `s:a` holds `fA`, destination `d:a` is
empty, so the plan for the pair is `[fA]`. -/
def envC9 : Env :=
  { today := "2024-01-01"
    clock := fun _ => ⟨0, 23 * 60 + 20⟩
    probe := fun _ => true
    listing := fun p =>
      if p = "s:a" then some [fA]
      else if p = "d:a" then some [] else none
    about := fun _ => .ok 1000 500
    copy := fun _ _ _ => (true, "")
    hash := fun _ _ => some "h1"
    del := fun _ => true }

/-! Helper lemmas. -/

@[simp] theorem counts_logError (st : RunState) (m : String) :
    (st.logError m).counts = st.counts := rfl

@[simp] theorem counts_logWarn (st : RunState) (m : String) :
    (st.logWarn m).counts = st.counts := rfl

@[simp] theorem counts_logInfo (st : RunState) (m : String) :
    (st.logInfo m).counts = st.counts := rfl

@[simp] theorem counts_nextTick (st : RunState) :
    st.nextTick.counts = st.counts := rfl

@[simp] theorem counts_putSnap (st : RunState) (k : String) (v : List Entry) :
    (st.putSnap k v).counts = st.counts := rfl

@[simp] theorem counts_putPlan (st : RunState) (k : String) (v : List Entry) :
    (st.putPlan k v).counts = st.counts := rfl

@[simp] theorem cache_logError (st : RunState) (m : String) :
    (st.logError m).cache = st.cache := rfl

@[simp] theorem cache_logWarn (st : RunState) (m : String) :
    (st.logWarn m).cache = st.cache := rfl

@[simp] theorem cache_logInfo (st : RunState) (m : String) :
    (st.logInfo m).cache = st.cache := rfl

@[simp] theorem cache_nextTick (st : RunState) :
    st.nextTick.cache = st.cache := rfl

@[simp] theorem cache_incListings (st : RunState) :
    st.incListings.cache = st.cache := rfl

@[simp] theorem cache_incCopies (st : RunState) :
    st.incCopies.cache = st.cache := rfl

@[simp] theorem cache_incDeletes (st : RunState) :
    st.incDeletes.cache = st.cache := rfl

@[simp] theorem cache_incHashes (st : RunState) :
    st.incHashes.cache = st.cache := rfl

@[simp] theorem copies_incCopies (st : RunState) :
    st.incCopies.counts.copies = st.counts.copies + 1 := rfl

@[simp] theorem copies_incDeletes (st : RunState) :
    st.incDeletes.counts.copies = st.counts.copies := rfl

@[simp] theorem copies_incHashes (st : RunState) :
    st.incHashes.counts.copies = st.counts.copies := rfl

@[simp] theorem copies_incListings (st : RunState) :
    st.incListings.counts.copies = st.counts.copies := rfl

@[simp] theorem deletes_incCopies (st : RunState) :
    st.incCopies.counts.deletes = st.counts.deletes := rfl

@[simp] theorem deletes_incDeletes (st : RunState) :
    st.incDeletes.counts.deletes = st.counts.deletes + 1 := rfl

@[simp] theorem deletes_incHashes (st : RunState) :
    st.incHashes.counts.deletes = st.counts.deletes := rfl

@[simp] theorem deletes_incListings (st : RunState) :
    st.incListings.counts.deletes = st.counts.deletes := rfl

@[simp] theorem listings_incCopies (st : RunState) :
    st.incCopies.counts.listings = st.counts.listings := rfl

@[simp] theorem listings_incDeletes (st : RunState) :
    st.incDeletes.counts.listings = st.counts.listings := rfl

@[simp] theorem listings_incHashes (st : RunState) :
    st.incHashes.counts.listings = st.counts.listings := rfl

@[simp] theorem listings_incListings (st : RunState) :
    st.incListings.counts.listings = st.counts.listings + 1 := rfl

/-- The probe helper never invokes a copy. -/
theorem check_remote_exists_copies (env : Env) (st : RunState) (r : String) :
    (check_remote_exists env st r).2.counts.copies = st.counts.copies := by
  unfold check_remote_exists
  split <;> simp

/-- The snapshot cache never invokes a copy. -/
theorem get_cached_files_copies (env : Env) (st : RunState) (r : String) (b : Bool) :
    (get_cached_files env st r b).2.counts.copies = st.counts.copies := by
  simp only [get_cached_files]
  cases hk : List.lookup (snapKey r b env.today) st.cache.snaps with
  | some files => simp
  | none =>
    cases hcre : check_remote_exists env st r with
    | mk ex st1 =>
      have h1 := check_remote_exists_copies env st r
      rw [hcre] at h1
      simp at h1
      cases ex
      · cases b <;> simp [h1]
      · cases hl : env.listing r <;> simp [h1]

/-- Deleting a file never invokes a copy. -/
theorem delete_file_copies (env : Env) (st : RunState) (p : String) :
    (delete_file env st p).2.counts.copies = st.counts.copies := by
  unfold delete_file
  split <;> simp

/-- The diff loop never invokes a copy. -/
theorem diffLoop_copies (env : Env) (destination : String) (destFiles : List Entry) :
    ∀ (src : List Entry) (st : RunState),
      (diffLoop env destination destFiles src st).2.counts.copies
        = st.counts.copies := by
  intro src
  induction src with
  | nil => intro st; simp [diffLoop]
  | cons e rest ih =>
    intro st
    simp only [diffLoop]
    split
    next d heq =>
      split
      next => simp [ih, delete_file_copies]
      next => simp [ih]
    next heq => simp [ih]

/-- Diffing and saving the plan never invokes a copy. -/
theorem diffAndSave_copies (env : Env) (st : RunState) (source destination : String)
    (sf : List Entry) :
    (diffAndSave env st source destination sf).2.counts.copies
      = st.counts.copies := by
  unfold diffAndSave
  simp [diffLoop_copies, get_cached_files_copies]

/-- Plan derivation never invokes a copy. -/
theorem get_files_to_copy_copies (env : Env) (st : RunState)
    (source destination : String) :
    (get_files_to_copy env st source destination).2.counts.copies
      = st.counts.copies := by
  simp only [get_files_to_copy]
  cases hk : List.lookup (planKey source env.today) st.cache.plans with
  | some plan => simp
  | none =>
    by_cases h0 : (get_cached_files env st source true).1 = []
    · rw [if_pos h0]
      cases hcre : check_remote_exists env (get_cached_files env st source true).2
          source with
      | mk ex stB =>
        have h1 := check_remote_exists_copies env
          (get_cached_files env st source true).2 source
        rw [hcre] at h1
        simp at h1
        cases ex
        · simp [h1, get_cached_files_copies env st source true]
        · simp [diffAndSave_copies, h1, get_cached_files_copies env st source true]
    · rw [if_neg h0]
      simp [diffAndSave_copies, get_cached_files_copies]

/-- Chronological order on `PyTime` is transitive. -/
theorem PyTime.le_trans {a b c : PyTime} (h1 : PyTime.le a b) (h2 : PyTime.le b c) :
    PyTime.le a c := by
  rcases h1 with h | ⟨e1, m1⟩ <;> rcases h2 with h' | ⟨e2, m2⟩
  · exact Or.inl (lt_trans h h')
  · exact Or.inl (by rw [← e2]; exact h)
  · exact Or.inl (by rw [e1]; exact h')
  · exact Or.inr ⟨e1.trans e2, Nat.le_trans m1 m2⟩

/-- With the deadline already reached at the current clock reading, the
file loop stops at its first planned file: one clock tick, nothing else. -/
theorem fileLoop_deadline (env : Env) (stopT : PyTime) (source destination : String)
    (free_space : Int) (f : Entry) (rest : List Entry) (c s : Nat) (st : RunState)
    (h : PyTime.le stopT (env.clock st.tick)) :
    fileLoop env stopT source destination free_space (f :: rest) c s st
      = (.deadline, c, s, st.nextTick) := by
  simp only [fileLoop]
  rw [if_pos h]

/-- The plan produced by the diff loop is exactly the source entries kept
by `wantsCopy`, in source order, for every delete oracle and state. -/
theorem diffLoop_fst (env : Env) (destination : String) (destFiles : List Entry) :
    ∀ (src : List Entry) (st : RunState),
      (diffLoop env destination destFiles src st).1 =
        src.filter (wantsCopy destFiles) := by
  intro src
  induction src with
  | nil => intro st; simp [diffLoop]
  | cons e rest ih =>
    intro st
    simp only [diffLoop, List.filter_cons]
    cases hld : lookupDict destFiles e.Path with
    | none => simp [wantsCopy, hld, ih]
    | some d =>
      cases hc : (e.md5 != "" && d.md5 != "" && e.md5 != d.md5) with
      | true => simp [wantsCopy, hld, hc, ih]
      | false => simp [wantsCopy, hld, hc, ih]

/-- Outcome of the copy/verify block when the initial copy fails with a
quota-indicating error text: classified fatal. -/
theorem attemptCopy_initial_quota (env : Env) (st : RunState) (sp dp m : String)
    (hcopy0 : env.copy sp dp 0 = (false, m))
    (hq : is_quota_exceeded m = true) :
    attemptCopy env st sp dp
      = (.failedQuota, st.incCopies.logError ("stop, quota exceeded: " ++ m)) := by
  simp only [attemptCopy, run_rclone_copy]
  rw [hcopy0]
  simp [hq]

/-- Outcome of the copy/verify block when the initial copy fails with a
non-quota error text: classified skippable. -/
theorem attemptCopy_initial_other (env : Env) (st : RunState) (sp dp m : String)
    (hcopy0 : env.copy sp dp 0 = (false, m))
    (hq : is_quota_exceeded m = false) :
    attemptCopy env st sp dp
      = (.failedOther, st.incCopies.logError ("copy error: " ++ m)) := by
  simp only [attemptCopy, run_rclone_copy]
  rw [hcopy0]
  simp [hq]

/-- Outcome of the copy/verify block when the copy succeeds, verification
fails, and the destination delete fails: reported failed with no retry
copy (one copy invocation, one delete invocation). -/
theorem attemptCopy_delete_fail (env : Env) (st : RunState) (sp dp m : String)
    (hcopy0 : env.copy sp dp 0 = (true, m))
    (hver : hashesMatch (env.hash sp 0) (env.hash dp 0) = false)
    (hdel : env.del dp = false) :
    attemptCopy env st sp dp
      = (.verifyFailed,
          (((((st.incCopies.incHashes.incHashes).logError
              ("hash mismatch: " ++ sp)).incDeletes).logWarn
            ("cannot delete file " ++ dp)).logWarn
          ("cannot delete bad copy: " ++ dp))) := by
  simp only [attemptCopy, run_rclone_copy, get_file_hash, delete_file]
  rw [hcopy0]
  simp [hver, hdel]

/-- Outcome of the copy/verify block when verification fails, the delete
succeeds, and the single retry copy itself fails: reported failed, with no
quota classification of the retry error text (two copy invocations, one
delete invocation). -/
theorem attemptCopy_retry_copy_fail (env : Env) (st : RunState) (sp dp m m2 : String)
    (hcopy0 : env.copy sp dp 0 = (true, m))
    (hver : hashesMatch (env.hash sp 0) (env.hash dp 0) = false)
    (hdel : env.del dp = true)
    (hc1 : env.copy sp dp 1 = (false, m2)) :
    attemptCopy env st sp dp
      = (.verifyFailed,
          (((((st.incCopies.incHashes.incHashes).logError
              ("hash mismatch: " ++ sp)).incDeletes).incCopies).logError
          ("error on retry copy: " ++ sp))) := by
  simp only [attemptCopy, run_rclone_copy, get_file_hash, delete_file]
  rw [hcopy0]
  simp [hver, hdel, hc1]

/-- Outcome of the copy/verify block when verification fails, the delete
succeeds, the retry copy succeeds but the re-verification hashes still do
not match: reported failed, no third copy attempt (two copy invocations,
one delete invocation). -/
theorem attemptCopy_retry_hash_fail (env : Env) (st : RunState) (sp dp m m2 : String)
    (hcopy0 : env.copy sp dp 0 = (true, m))
    (hver : hashesMatch (env.hash sp 0) (env.hash dp 0) = false)
    (hdel : env.del dp = true)
    (hc1 : env.copy sp dp 1 = (true, m2))
    (hvm : hashesMatch (env.hash sp 1) (env.hash dp 1) = false) :
    attemptCopy env st sp dp
      = (.verifyFailed,
          ((((((st.incCopies.incHashes.incHashes).logError
              ("hash mismatch: " ++ sp)).incDeletes).incCopies).incHashes).incHashes).logError
          ("retry failed, hash still differs: " ++ sp)) := by
  simp only [attemptCopy, run_rclone_copy, get_file_hash, delete_file]
  rw [hcopy0]
  simp [hver, hdel, hc1, hvm]

/-- Outcome of the copy/verify block when verification fails, the delete
succeeds, and the retry copy verifies: the file counts as copied. -/
theorem attemptCopy_retry_verified (env : Env) (st : RunState) (sp dp m m2 : String)
    (hcopy0 : env.copy sp dp 0 = (true, m))
    (hver : hashesMatch (env.hash sp 0) (env.hash dp 0) = false)
    (hdel : env.del dp = true)
    (hc1 : env.copy sp dp 1 = (true, m2))
    (hvm : hashesMatch (env.hash sp 1) (env.hash dp 1) = true) :
    attemptCopy env st sp dp
      = (.verified,
          (((((st.incCopies.incHashes.incHashes).logError
              ("hash mismatch: " ++ sp)).incDeletes).incCopies).incHashes).incHashes) := by
  simp only [attemptCopy, run_rclone_copy, get_file_hash, delete_file]
  rw [hcopy0]
  simp [hver, hdel, hc1, hvm]

/-- A file that passes the deadline, volume, space and source-existence
checks and whose copy/verify block reports a fatal quota failure stops the
file loop immediately with unchanged totals. -/
theorem fileLoop_step_quota (env : Env) (stopT : PyTime)
    (source destination : String) (free_space : Int) (f : Entry)
    (rest : List Entry) (c s : Nat) (st : RunState) (its : List Entry)
    (htime : ¬ PyTime.le stopT (env.clock st.tick))
    (hvol : ¬ MAX_TRANSFER_BYTES ≤ s)
    (hspace : ¬ free_space < (s : Int) + (f.Size : Int))
    (hls : env.listing (source ++ "/" ++ f.Path) = some its)
    (hits : ¬ its = [])
    (ho : (attemptCopy env (st.nextTick.incListings) (source ++ "/" ++ f.Path)
        (destination ++ "/" ++ f.Path)).1 = CopyOutcome.failedQuota) :
    fileLoop env stopT source destination free_space (f :: rest) c s st
      = (.quota, c, s,
          (attemptCopy env (st.nextTick.incListings) (source ++ "/" ++ f.Path)
            (destination ++ "/" ++ f.Path)).2) := by
  simp only [fileLoop]
  rw [if_neg htime, if_neg hvol, if_neg hspace]
  simp only [hls]
  rw [if_neg hits]
  simp only [ho]

/-- A file that passes the four pre-checks and whose copy/verify block
verifies bumps the totals and continues with the remaining files. -/
theorem fileLoop_step_verified (env : Env) (stopT : PyTime)
    (source destination : String) (free_space : Int) (f : Entry)
    (rest : List Entry) (c s : Nat) (st : RunState) (its : List Entry)
    (htime : ¬ PyTime.le stopT (env.clock st.tick))
    (hvol : ¬ MAX_TRANSFER_BYTES ≤ s)
    (hspace : ¬ free_space < (s : Int) + (f.Size : Int))
    (hls : env.listing (source ++ "/" ++ f.Path) = some its)
    (hits : ¬ its = [])
    (ho : (attemptCopy env (st.nextTick.incListings) (source ++ "/" ++ f.Path)
        (destination ++ "/" ++ f.Path)).1 = CopyOutcome.verified) :
    fileLoop env stopT source destination free_space (f :: rest) c s st
      = fileLoop env stopT source destination free_space rest (c + 1) (s + f.Size)
          (attemptCopy env (st.nextTick.incListings) (source ++ "/" ++ f.Path)
            (destination ++ "/" ++ f.Path)).2 := by
  simp only [fileLoop]
  rw [if_neg htime, if_neg hvol, if_neg hspace]
  simp only [hls]
  rw [if_neg hits]
  simp only [ho]

/-- A file that passes the four pre-checks and whose copy/verify block
reports a skippable failure (verification failure or non-quota copy
failure) is skipped: the loop continues with the remaining files and
unchanged totals. -/
theorem fileLoop_step_skip (env : Env) (stopT : PyTime)
    (source destination : String) (free_space : Int) (f : Entry)
    (rest : List Entry) (c s : Nat) (st : RunState) (its : List Entry)
    (htime : ¬ PyTime.le stopT (env.clock st.tick))
    (hvol : ¬ MAX_TRANSFER_BYTES ≤ s)
    (hspace : ¬ free_space < (s : Int) + (f.Size : Int))
    (hls : env.listing (source ++ "/" ++ f.Path) = some its)
    (hits : ¬ its = [])
    (ho : (attemptCopy env (st.nextTick.incListings) (source ++ "/" ++ f.Path)
          (destination ++ "/" ++ f.Path)).1 = CopyOutcome.verifyFailed
        ∨ (attemptCopy env (st.nextTick.incListings) (source ++ "/" ++ f.Path)
          (destination ++ "/" ++ f.Path)).1 = CopyOutcome.failedOther) :
    fileLoop env stopT source destination free_space (f :: rest) c s st
      = fileLoop env stopT source destination free_space rest c s
          (attemptCopy env (st.nextTick.incListings) (source ++ "/" ++ f.Path)
            (destination ++ "/" ++ f.Path)).2 := by
  simp only [fileLoop]
  rw [if_neg htime, if_neg hvol, if_neg hspace]
  simp only [hls]
  rw [if_neg hits]
  rcases ho with ho | ho
  · simp only [ho]
  · simp only [ho]

/-! Claims. -/

/-- C4: for every source snapshot `S` and destination snapshot `D`, the
diff loop computes exactly the entries of `S` whose path is absent from
`D` plus those present in `D` with both md5 hashes known (non-empty) and
unequal — that is the predicate `wantsCopy D` — in the order the entries
appear in `S` (`List.filter` preserves order); moreover an entry present
in `D` with either hash unknown is excluded from the plan. -/
theorem C4_plan_exactness (env : Env) (destination : String)
    (S D : List Entry) (st : RunState) :
    (diffLoop env destination D S st).1 = S.filter (wantsCopy D)
    ∧ (∀ e, e ∈ S → ∀ d, lookupDict D e.Path = some d →
        (e.md5 = "" ∨ d.md5 = "") → e ∉ (diffLoop env destination D S st).1) := by
  refine ⟨diffLoop_fst env destination D S st, ?_⟩
  intro e _he d hd hunk
  rw [diffLoop_fst]
  intro hmem
  rcases List.mem_filter.mp hmem with ⟨-, hp⟩
  have hfalse : wantsCopy D e = false := by
    unfold wantsCopy
    rw [hd]
    rcases hunk with h | h <;> simp [h]
  rw [hfalse] at hp
  cases hp

/-- Witness for C4 at a concrete input: `S = [fA, fB, eU]`,
`D = [fBstale, dU]`; the plan is `[fA, fB]` (fresh copy for `fA`, hash
mismatch for `fB`) and the unknown-hash entry `eU` is excluded. -/
theorem C4_plan_exactness_witness :
    (diffLoop envC2 "d:x" [fBstale, dU] [fA, fB, eU] RunState.init).1 = [fA, fB]
    ∧ eU ∉ (diffLoop envC2 "d:x" [fBstale, dU] [fA, fB, eU] RunState.init).1 := by
  have h := C4_plan_exactness envC2 "d:x" [fA, fB, eU] [fBstale, dU] RunState.init
  refine ⟨?_, h.2 eU (by simp) dU rfl (Or.inl rfl)⟩
  rw [h.1]
  rfl

/-- C10: when a source entry's path is present in the destination with
both hashes known and unequal, the entry is in the plan no matter what the
delete oracle answers: the plan is identical under any two environments
and states (in particular eager-delete success versus failure, the failure
being only logged inside `delete_file`), and the entry is a member of the
plan. -/
theorem C10_plan_independent_of_delete
    (S D : List Entry) (e d : Entry)
    (he : e ∈ S) (hd : lookupDict D e.Path = some d)
    (h1 : e.md5 ≠ "") (h2 : d.md5 ≠ "") (h3 : e.md5 ≠ d.md5) :
    (∀ (env env' : Env) (destination : String) (st st' : RunState),
        (diffLoop env destination D S st).1 = (diffLoop env' destination D S st').1)
    ∧ ∀ (env : Env) (destination : String) (st : RunState),
        e ∈ (diffLoop env destination D S st).1 := by
  constructor
  · intro env env' dst st st'
    rw [diffLoop_fst, diffLoop_fst]
  · intro env dst st
    rw [diffLoop_fst]
    refine List.mem_filter.mpr ⟨he, ?_⟩
    unfold wantsCopy
    rw [hd]
    simp [h1, h2, h3]

/-- Witness for C10 at a concrete input: the stale entry `fBstale` makes
`fB` a mismatch; the plan under the always-failing delete oracle of
`envC5` equals the plan under the always-succeeding one of `envC2`, and
`fB` is in it. -/
theorem C10_plan_independent_of_delete_witness :
    ((diffLoop envC5 "d:a" [fBstale] [fB] RunState.init).1
        = (diffLoop envC2 "d:a" [fBstale] [fB] RunState.init).1)
    ∧ fB ∈ (diffLoop envC5 "d:a" [fBstale] [fB] RunState.init).1 := by
  have h := C10_plan_independent_of_delete [fB] [fBstale] fB fBstale (by simp)
    rfl (by decide) (by decide) (by decide)
  exact ⟨h.1 envC5 envC2 "d:a" RunState.init RunState.init,
    h.2 envC5 "d:a" RunState.init⟩

/-- C1 (code bug): a failing capacity query returns a 2-tuple
`(False, message)`, which the orchestrator's three-name tuple unpacking at
line 249 turns into an uncaught `ValueError` aborting the whole run,
instead of the logged skip the dead `if not success` branch intends: with
the malformed destination path "nodest" (no colon separator) the run
crashes. -/
theorem C1_capacity_failure_crashes :
    processPairs envC2 ⟨0, 1380⟩ [("s:a", "nodest")] 0 0 RunState.init
      = Except.error "ValueError: not enough values to unpack (expected 3, got 2)" := rfl

/-- C2 (code bug): the plan cache artifact name `planKey` contains the
source digest and the day but not the destination, so after planning the
pair (src:a, d1:a) — whose plan is `[fA]` since d1 is empty — the same-day
call for (src:a, d2:a) returns that cached plan verbatim, although the
plan derived from scratch for d2 (which already holds `fA`) is empty. -/
theorem C2_plan_cache_ignores_destination :
    (get_files_to_copy envC2 RunState.init "src:a" "d1:a").1 = [fA]
    ∧ (get_files_to_copy envC2
        (get_files_to_copy envC2 RunState.init "src:a" "d1:a").2 "src:a" "d2:a").1 = [fA]
    ∧ (get_files_to_copy envC2 RunState.init "src:a" "d2:a").1 = [] :=
  ⟨rfl, rfl, rfl⟩

/-- C3 counterexample: a copy failure with quota-indicating error text
that does NOT halt the run.  In `envC3`, file `B.mkv` copies, its
verification hashes mismatch, the delete succeeds, and the retry copy
fails with "Exit code 1: 403 Forbidden" — a text the classifier matches —
yet the loop continues and still copies `C.mkv`: the run finishes with 1
file / 5 bytes copied and 3 copy invocations in total, refuting the claim
that any quota-text copy failure halts the run with no further files
attempted. -/
theorem C3_counterexample :
    is_quota_exceeded "Exit code 1: 403 Forbidden" = true
    ∧ (fileLoop envC3 ⟨0, 1380⟩ "s:a" "d:a" 1000000 [fB, fC] 0 0 RunState.init).1
        = RunExit.finished
    ∧ (fileLoop envC3 ⟨0, 1380⟩ "s:a" "d:a" 1000000 [fB, fC] 0 0 RunState.init).2.1 = 1
    ∧ (fileLoop envC3 ⟨0, 1380⟩ "s:a" "d:a" 1000000 [fB, fC] 0 0
        RunState.init).2.2.1 = 5
    ∧ (fileLoop envC3 ⟨0, 1380⟩ "s:a" "d:a" 1000000 [fB, fC] 0 0
        RunState.init).2.2.2.counts.copies = 3 :=
  ⟨rfl, rfl, rfl, rfl, rfl⟩

/-- C3 (amended): only the failure text of the INITIAL copy attempt is
classified.  For a planned file that passes the deadline, volume, space
and source-existence pre-checks: an initial copy failure whose text
matches a quota indicator halts the whole file loop immediately with
unchanged totals (the orchestrator then returns); an initial copy failure
matching no indicator only skips the file; and a failure of the retry copy
performed after a verification failure never halts, whatever its text —
the file is skipped and the loop continues. -/
theorem C3_quota_halt_initial_only (env : Env) (stopT : PyTime)
    (source destination : String) (free_space : Int) (f : Entry)
    (rest : List Entry) (c s : Nat) (st : RunState) (its : List Entry)
    (htime : ¬ PyTime.le stopT (env.clock st.tick))
    (hvol : ¬ MAX_TRANSFER_BYTES ≤ s)
    (hspace : ¬ free_space < (s : Int) + (f.Size : Int))
    (hls : env.listing (source ++ "/" ++ f.Path) = some its)
    (hits : ¬ its = []) :
    (∀ m, env.copy (source ++ "/" ++ f.Path) (destination ++ "/" ++ f.Path) 0
          = (false, m) →
        is_quota_exceeded m = true →
        ∃ st2, fileLoop env stopT source destination free_space (f :: rest) c s st
          = (.quota, c, s, st2))
    ∧ (∀ m, env.copy (source ++ "/" ++ f.Path) (destination ++ "/" ++ f.Path) 0
          = (false, m) →
        is_quota_exceeded m = false →
        ∃ st2, fileLoop env stopT source destination free_space (f :: rest) c s st
          = fileLoop env stopT source destination free_space rest c s st2)
    ∧ (∀ m m2, env.copy (source ++ "/" ++ f.Path) (destination ++ "/" ++ f.Path) 0
          = (true, m) →
        hashesMatch (env.hash (source ++ "/" ++ f.Path) 0)
          (env.hash (destination ++ "/" ++ f.Path) 0) = false →
        env.del (destination ++ "/" ++ f.Path) = true →
        env.copy (source ++ "/" ++ f.Path) (destination ++ "/" ++ f.Path) 1
          = (false, m2) →
        ∃ st2, fileLoop env stopT source destination free_space (f :: rest) c s st
          = fileLoop env stopT source destination free_space rest c s st2) := by
  refine ⟨?_, ?_, ?_⟩
  · intro m hc hq
    refine ⟨_, fileLoop_step_quota env stopT source destination free_space f rest
      c s st its htime hvol hspace hls hits ?_⟩
    rw [attemptCopy_initial_quota env _ _ _ m hc hq]
  · intro m hc hq
    refine ⟨_, fileLoop_step_skip env stopT source destination free_space f rest
      c s st its htime hvol hspace hls hits (Or.inr ?_)⟩
    rw [attemptCopy_initial_other env _ _ _ m hc hq]
  · intro m m2 hc hv hd hc1
    refine ⟨_, fileLoop_step_skip env stopT source destination free_space f rest
      c s st its htime hvol hspace hls hits (Or.inl ?_)⟩
    rw [attemptCopy_retry_copy_fail env _ _ _ m m2 hc hv hd hc1]

/-- Witness for C3 (amended) at a concrete input: in `envC3b` every copy
fails with "Failed: userRateLimitExceeded", so the first planned file
halts the loop with the quota exit and unchanged totals. -/
theorem C3_quota_halt_initial_only_witness :
    (fileLoop envC3b ⟨0, 1380⟩ "s:a" "d:a" 1000000 [fB] 0 0 RunState.init).1
      = RunExit.quota := by
  obtain ⟨st2, heq⟩ :=
    (C3_quota_halt_initial_only envC3b ⟨0, 1380⟩ "s:a" "d:a" 1000000 fB [] 0 0
      RunState.init [fB] (by decide) (by decide) (by decide) rfl
      (by decide)).1 "Failed: userRateLimitExceeded" rfl rfl
  rw [heq]

/-- C5 counterexample: a file whose copy succeeds, whose verification
hashes mismatch, and whose destination delete FAILS, gets no retry copy at
all: only one copy invocation is performed (the claim demands exactly one
deletion and exactly one retry copy, i.e. two copy invocations), and the
file is reported failed. -/
theorem C5_counterexample :
    (attemptCopy envC5 RunState.init "s:a/B.mkv" "d:a/B.mkv").2.counts.copies = 1
    ∧ (attemptCopy envC5 RunState.init "s:a/B.mkv" "d:a/B.mkv").2.counts.deletes = 1
    ∧ (attemptCopy envC5 RunState.init "s:a/B.mkv" "d:a/B.mkv").1
        = CopyOutcome.verifyFailed :=
  ⟨rfl, rfl, rfl⟩

/-- C5 (amended): for a planned file that passes the four pre-checks,
whose copy succeeds but whose source and destination hashes do not both
exist and match, the executor attempts exactly one deletion of the
destination copy; if the deletion succeeds it performs exactly one retry
copy (two copy invocations in total, never a third); if the deletion fails
it performs no retry copy (one copy invocation) and reports the file
failed; the outcome is always `verified` or `verifyFailed` (never the
run-fatal quota outcome); and whenever the retry fails to produce matching
hashes — retry copy error or renewed mismatch — the file is reported
failed and the loop continues with the remaining files and unchanged
totals. -/
theorem C5_verification_retry (env : Env) (stopT : PyTime)
    (source destination : String) (free_space : Int) (f : Entry)
    (rest : List Entry) (c s : Nat) (st : RunState) (its : List Entry) (m : String)
    (htime : ¬ PyTime.le stopT (env.clock st.tick))
    (hvol : ¬ MAX_TRANSFER_BYTES ≤ s)
    (hspace : ¬ free_space < (s : Int) + (f.Size : Int))
    (hls : env.listing (source ++ "/" ++ f.Path) = some its)
    (hits : ¬ its = [])
    (hcopy0 : env.copy (source ++ "/" ++ f.Path) (destination ++ "/" ++ f.Path) 0
      = (true, m))
    (hver : hashesMatch (env.hash (source ++ "/" ++ f.Path) 0)
      (env.hash (destination ++ "/" ++ f.Path) 0) = false) :
    ((attemptCopy env (st.nextTick.incListings) (source ++ "/" ++ f.Path)
        (destination ++ "/" ++ f.Path)).2.counts.deletes = st.counts.deletes + 1)
    ∧ (env.del (destination ++ "/" ++ f.Path) = true →
        (attemptCopy env (st.nextTick.incListings) (source ++ "/" ++ f.Path)
          (destination ++ "/" ++ f.Path)).2.counts.copies = st.counts.copies + 2)
    ∧ (env.del (destination ++ "/" ++ f.Path) = false →
        (attemptCopy env (st.nextTick.incListings) (source ++ "/" ++ f.Path)
          (destination ++ "/" ++ f.Path)).2.counts.copies = st.counts.copies + 1
        ∧ (attemptCopy env (st.nextTick.incListings) (source ++ "/" ++ f.Path)
          (destination ++ "/" ++ f.Path)).1 = CopyOutcome.verifyFailed
        ∧ fileLoop env stopT source destination free_space (f :: rest) c s st
          = fileLoop env stopT source destination free_space rest c s
              (attemptCopy env (st.nextTick.incListings) (source ++ "/" ++ f.Path)
                (destination ++ "/" ++ f.Path)).2)
    ∧ ((attemptCopy env (st.nextTick.incListings) (source ++ "/" ++ f.Path)
          (destination ++ "/" ++ f.Path)).1 = CopyOutcome.verified
        ∨ (attemptCopy env (st.nextTick.incListings) (source ++ "/" ++ f.Path)
          (destination ++ "/" ++ f.Path)).1 = CopyOutcome.verifyFailed)
    ∧ (env.del (destination ++ "/" ++ f.Path) = true →
        (env.copy (source ++ "/" ++ f.Path) (destination ++ "/" ++ f.Path) 1).1
          = false →
        (attemptCopy env (st.nextTick.incListings) (source ++ "/" ++ f.Path)
          (destination ++ "/" ++ f.Path)).1 = CopyOutcome.verifyFailed
        ∧ fileLoop env stopT source destination free_space (f :: rest) c s st
          = fileLoop env stopT source destination free_space rest c s
              (attemptCopy env (st.nextTick.incListings) (source ++ "/" ++ f.Path)
                (destination ++ "/" ++ f.Path)).2)
    ∧ (env.del (destination ++ "/" ++ f.Path) = true →
        (env.copy (source ++ "/" ++ f.Path) (destination ++ "/" ++ f.Path) 1).1
          = true →
        hashesMatch (env.hash (source ++ "/" ++ f.Path) 1)
          (env.hash (destination ++ "/" ++ f.Path) 1) = false →
        (attemptCopy env (st.nextTick.incListings) (source ++ "/" ++ f.Path)
          (destination ++ "/" ++ f.Path)).1 = CopyOutcome.verifyFailed
        ∧ fileLoop env stopT source destination free_space (f :: rest) c s st
          = fileLoop env stopT source destination free_space rest c s
              (attemptCopy env (st.nextTick.incListings) (source ++ "/" ++ f.Path)
                (destination ++ "/" ++ f.Path)).2) := by
  have hskip : ∀ ho : (attemptCopy env (st.nextTick.incListings)
      (source ++ "/" ++ f.Path) (destination ++ "/" ++ f.Path)).1
        = CopyOutcome.verifyFailed,
      fileLoop env stopT source destination free_space (f :: rest) c s st
        = fileLoop env stopT source destination free_space rest c s
            (attemptCopy env (st.nextTick.incListings) (source ++ "/" ++ f.Path)
              (destination ++ "/" ++ f.Path)).2 := by
    intro ho
    exact fileLoop_step_skip env stopT source destination free_space f rest c s st
      its htime hvol hspace hls hits (Or.inl ho)
  refine ⟨?_, ?_, ?_, ?_, ?_, ?_⟩
  · cases hdel : env.del (destination ++ "/" ++ f.Path)
    · rw [attemptCopy_delete_fail env _ _ _ m hcopy0 hver hdel]
      simp
    · cases hc1 : env.copy (source ++ "/" ++ f.Path) (destination ++ "/" ++ f.Path) 1
        with
      | mk ok1 m2 =>
        cases ok1
        · rw [attemptCopy_retry_copy_fail env _ _ _ m m2 hcopy0 hver hdel hc1]
          simp
        · cases hvm : hashesMatch (env.hash (source ++ "/" ++ f.Path) 1)
              (env.hash (destination ++ "/" ++ f.Path) 1)
          · rw [attemptCopy_retry_hash_fail env _ _ _ m m2 hcopy0 hver hdel hc1 hvm]
            simp
          · rw [attemptCopy_retry_verified env _ _ _ m m2 hcopy0 hver hdel hc1 hvm]
            simp
  · intro hdel
    cases hc1 : env.copy (source ++ "/" ++ f.Path) (destination ++ "/" ++ f.Path) 1
      with
    | mk ok1 m2 =>
      cases ok1
      · rw [attemptCopy_retry_copy_fail env _ _ _ m m2 hcopy0 hver hdel hc1]
        simp
      · cases hvm : hashesMatch (env.hash (source ++ "/" ++ f.Path) 1)
            (env.hash (destination ++ "/" ++ f.Path) 1)
        · rw [attemptCopy_retry_hash_fail env _ _ _ m m2 hcopy0 hver hdel hc1 hvm]
          simp
        · rw [attemptCopy_retry_verified env _ _ _ m m2 hcopy0 hver hdel hc1 hvm]
          simp
  · intro hdel
    have hAC := attemptCopy_delete_fail env (st.nextTick.incListings) _ _ m
      hcopy0 hver hdel
    refine ⟨by rw [hAC]; simp, by rw [hAC], hskip (by rw [hAC])⟩
  · cases hdel : env.del (destination ++ "/" ++ f.Path)
    · rw [attemptCopy_delete_fail env _ _ _ m hcopy0 hver hdel]
      right
      rfl
    · cases hc1 : env.copy (source ++ "/" ++ f.Path) (destination ++ "/" ++ f.Path) 1
        with
      | mk ok1 m2 =>
        cases ok1
        · rw [attemptCopy_retry_copy_fail env _ _ _ m m2 hcopy0 hver hdel hc1]
          right
          rfl
        · cases hvm : hashesMatch (env.hash (source ++ "/" ++ f.Path) 1)
              (env.hash (destination ++ "/" ++ f.Path) 1)
          · rw [attemptCopy_retry_hash_fail env _ _ _ m m2 hcopy0 hver hdel hc1 hvm]
            right
            rfl
          · rw [attemptCopy_retry_verified env _ _ _ m m2 hcopy0 hver hdel hc1 hvm]
            left
            rfl
  · intro hdel hfail
    have hc1 : env.copy (source ++ "/" ++ f.Path) (destination ++ "/" ++ f.Path) 1
        = (false, (env.copy (source ++ "/" ++ f.Path)
            (destination ++ "/" ++ f.Path) 1).2) := by
      rw [← hfail]
    have hAC := attemptCopy_retry_copy_fail env (st.nextTick.incListings) _ _ m _
      hcopy0 hver hdel hc1
    exact ⟨by rw [hAC], hskip (by rw [hAC])⟩
  · intro hdel hok hvm
    have hc1 : env.copy (source ++ "/" ++ f.Path) (destination ++ "/" ++ f.Path) 1
        = (true, (env.copy (source ++ "/" ++ f.Path)
            (destination ++ "/" ++ f.Path) 1).2) := by
      rw [← hok]
    have hAC := attemptCopy_retry_hash_fail env (st.nextTick.incListings) _ _ m _
      hcopy0 hver hdel hc1 hvm
    exact ⟨by rw [hAC], hskip (by rw [hAC])⟩

/-- Witness for C5 (amended) at a concrete input: in `envC5` the copy of
`B.mkv` succeeds, the hashes mismatch and the delete fails; the theorem
yields exactly one delete attempt, a single copy invocation (no retry),
and the continuing loop. -/
theorem C5_verification_retry_witness :
    (attemptCopy envC5 (RunState.init.nextTick.incListings) ("s:a" ++ "/" ++ fB.Path)
        ("d:a" ++ "/" ++ fB.Path)).2.counts.deletes
      = RunState.init.counts.deletes + 1
    ∧ (attemptCopy envC5 (RunState.init.nextTick.incListings) ("s:a" ++ "/" ++ fB.Path)
        ("d:a" ++ "/" ++ fB.Path)).2.counts.copies
      = RunState.init.counts.copies + 1
    ∧ fileLoop envC5 ⟨0, 1380⟩ "s:a" "d:a" 1000000 [fB] 0 0 RunState.init
      = fileLoop envC5 ⟨0, 1380⟩ "s:a" "d:a" 1000000 [] 0 0
          (attemptCopy envC5 (RunState.init.nextTick.incListings)
            ("s:a" ++ "/" ++ fB.Path) ("d:a" ++ "/" ++ fB.Path)).2 := by
  have h := C5_verification_retry envC5 ⟨0, 1380⟩ "s:a" "d:a" 1000000 fB [] 0 0
    RunState.init [fB] "" (by decide) (by decide) (by decide) rfl (by decide)
    rfl rfl
  obtain ⟨hcop, -, hcont⟩ := h.2.2.1 rfl
  exact ⟨h.1, hcop, hcont⟩

/-- C6: inside a pair, when the deadline and the byte cap have not been
reached but the free-byte reading taken at the start of the pair (the
fixed `free_space` parameter, not refreshed per file) is insufficient for
the next planned file, that file is skipped with an error log and no
external call at all — the counters are unchanged — and the loop
continues with the remaining files with the same totals and the same
`free_space`, rather than stopping. -/
theorem C6_space_guard (env : Env) (stopT : PyTime) (source destination : String)
    (free_space : Int) (f : Entry) (rest : List Entry) (c s : Nat) (st : RunState)
    (htime : ¬ PyTime.le stopT (env.clock st.tick))
    (hvol : ¬ MAX_TRANSFER_BYTES ≤ s)
    (hspace : free_space < (s : Int) + (f.Size : Int)) :
    fileLoop env stopT source destination free_space (f :: rest) c s st
      = fileLoop env stopT source destination free_space rest c s
          (st.nextTick.logError ("not enough free space for " ++ f.Path))
    ∧ (st.nextTick.logError ("not enough free space for " ++ f.Path)).counts
        = st.counts := by
  constructor
  · simp only [fileLoop]
    rw [if_neg htime, if_neg hvol, if_pos hspace]
  · rfl

/-- Witness for C6 at a concrete input: free space 0, file of size 10,
deadline not reached. -/
theorem C6_space_guard_witness :
    fileLoop envC2 ⟨0, 1380⟩ "s:a" "d:a" 0 [fA] 0 0 RunState.init
      = fileLoop envC2 ⟨0, 1380⟩ "s:a" "d:a" 0 [] 0 0
          (RunState.init.nextTick.logError ("not enough free space for " ++ fA.Path))
    ∧ (RunState.init.nextTick.logError ("not enough free space for " ++ fA.Path)).counts
        = RunState.init.counts :=
  C6_space_guard envC2 ⟨0, 1380⟩ "s:a" "d:a" 0 fA [] 0 0 RunState.init
    (by decide) (by decide) (by decide)

/-- C7: on a same-day cache miss whose existence probe fails, the snapshot
cache returns an empty snapshot for either role; for the source role it
logs an error and writes no cache artifact (the cache is unchanged), for
the destination role it persists the empty snapshot under the same-day
artifact name and its own log line is only informational (the error line
in both equations comes from the shared probe helper
`check_remote_exists`). -/
theorem C7_missing_tree_roles (env : Env) (st : RunState) (remote_path : String)
    (hkS : st.cache.snaps.lookup (snapKey remote_path true env.today) = none)
    (hkD : st.cache.snaps.lookup (snapKey remote_path false env.today) = none)
    (hprobe : env.probe remote_path = false) :
    get_cached_files env st remote_path true
      = ([], (st.incListings.logError
            ("missing or error checking: " ++ remote_path)).logError
          ("skip sync, source tree missing: " ++ remote_path))
    ∧ get_cached_files env st remote_path false
      = ([], ((st.incListings.logError
            ("missing or error checking: " ++ remote_path)).logInfo
          ("destination tree missing, empty cache: " ++ remote_path)).putSnap
          (snapKey remote_path false env.today) []) := by
  have hcre : check_remote_exists env st remote_path
      = (false, st.incListings.logError
          ("missing or error checking: " ++ remote_path)) := by
    unfold check_remote_exists
    rw [hprobe]
    simp
  constructor
  · simp only [get_cached_files]
    rw [hkS, hcre]
    simp
  · simp only [get_cached_files]
    rw [hkD, hcre]
    simp

/-- Witness for C7 at a concrete input: all trees of `envC7` are absent
and the cache of `RunState.init` is empty. -/
theorem C7_missing_tree_roles_witness :
    get_cached_files envC7 RunState.init "gone:a" true
      = ([], (RunState.init.incListings.logError
            ("missing or error checking: " ++ "gone:a")).logError
          ("skip sync, source tree missing: " ++ "gone:a"))
    ∧ get_cached_files envC7 RunState.init "gone:a" false
      = ([], ((RunState.init.incListings.logError
            ("missing or error checking: " ++ "gone:a")).logInfo
          ("destination tree missing, empty cache: " ++ "gone:a")).putSnap
          (snapKey "gone:a" false envC7.today) []) :=
  C7_missing_tree_roles envC7 RunState.init "gone:a" rfl rfl rfl

/-- C8: a pair whose destination free-space percentage reads below 2 is
skipped before any listing, existence check or diff work: the orchestrator
recurses on the remaining pairs with a state that differs only by one
error log line — in particular the external-call counters (zero further
listing calls) and the cache are unchanged. -/
theorem C8_low_space_short_circuit (env : Env) (stopT : PyTime)
    (source destination : String) (rest : List (String × String))
    (c s : Nat) (st : RunState) (p : ℚ) (fr : Int)
    (hcap : get_gdrive_free_space_percent_from_path env destination
      = .triple true p fr)
    (hp : p < 2) :
    processPairs env stopT ((source, destination) :: rest) c s st
      = processPairs env stopT rest c s
          (st.logError ("free space below 2 percent on " ++ destination))
    ∧ (st.logError ("free space below 2 percent on " ++ destination)).counts
        = st.counts
    ∧ (st.logError ("free space below 2 percent on " ++ destination)).cache
        = st.cache := by
  refine ⟨?_, rfl, rfl⟩
  simp only [processPairs]
  rw [hcap]
  simp only [unpack3]
  rw [if_neg (by simp), if_pos hp]

/-- C9: for an invocation whose clock readings are monotone and whose
first reading (the one line 233 derives the 23:00 stop deadline from) is
at or after 23:00, the deadline is already in the past at every later
reading, so: (first conjunct) whatever the configured pairs, a run that
terminates normally returns with its totals unchanged — started at 0/0 it
reports 0 files and 0 bytes — and performs zero copy invocations; yet
(second conjunct) for a first pair whose capacity reads successfully at
2 percent or more and whose source tree exists and yields a non-empty
plan, the capacity query, the existence check and the whole plan
derivation — including any eager deletions and cache writes recorded in
the plan-derivation state `st2` — still execute, and the run then stops
with the deadline exit at its first planned file, with totals unchanged
and final state `st2.nextTick`. -/
theorem C9_late_start (env : Env)
    (hmono : ∀ i j : Nat, i ≤ j → PyTime.le (env.clock i) (env.clock j))
    (hlate : 23 * 60 ≤ (env.clock 0).minute) :
    (∀ (pairs : List (String × String)) (c s : Nat) (st : RunState)
        (ex : RunExit) (c2 s2 : Nat) (st2 : RunState),
        processPairs env (replace23 (env.clock 0)) pairs c s st
            = .ok (ex, c2, s2, st2) →
        c2 = c ∧ s2 = s ∧ st2.counts.copies = st.counts.copies)
    ∧ (∀ (source destination : String) (rest : List (String × String))
        (c s : Nat) (st : RunState) (p : ℚ) (fr : Int) (f : Entry)
        (fs : List Entry) (st2 : RunState),
        get_gdrive_free_space_percent_from_path env destination
          = .triple true p fr →
        ¬ p < 2 →
        env.probe source = true →
        get_files_to_copy env st.incListings source destination = (f :: fs, st2) →
        processPairs env (replace23 (env.clock 0)) ((source, destination) :: rest)
            c s st
          = .ok (.deadline, c, s, st2.nextTick)
        ∧ st2.counts.copies = st.counts.copies) := by
  have hAll : ∀ k, PyTime.le (replace23 (env.clock 0)) (env.clock k) := by
    intro k
    refine PyTime.le_trans ?_ (hmono 0 k (Nat.zero_le k))
    exact Or.inr ⟨rfl, hlate⟩
  constructor
  · intro pairs
    induction pairs with
    | nil =>
      intro c s st ex c2 s2 st2 h0
      simp only [processPairs, Except.ok.injEq, Prod.mk.injEq] at h0
      obtain ⟨-, hc, hs, hst⟩ := h0
      exact ⟨hc.symm, hs.symm, by rw [← hst]⟩
    | cons pr rest ih =>
      obtain ⟨source, destination⟩ := pr
      intro c s st ex c2 s2 st2 h0
      simp only [processPairs] at h0
      cases hcap : get_gdrive_free_space_percent_from_path env destination with
      | pair b msg =>
        rw [hcap] at h0
        simp only [unpack3] at h0
        cases h0
      | triple succ p fr =>
        rw [hcap] at h0
        simp only [unpack3] at h0
        cases succ
        · rw [if_pos rfl] at h0
          obtain ⟨hc, hs, hcp⟩ := ih c s _ ex c2 s2 st2 h0
          exact ⟨hc, hs, by simpa using hcp⟩
        · rw [if_neg (by simp)] at h0
          by_cases hp : p < 2
          · rw [if_pos hp] at h0
            obtain ⟨hc, hs, hcp⟩ := ih c s _ ex c2 s2 st2 h0
            exact ⟨hc, hs, by simpa using hcp⟩
          · rw [if_neg hp] at h0
            cases hcre : check_remote_exists env st source with
            | mk ex1 st1 =>
              rw [hcre] at h0
              have hc1 := check_remote_exists_copies env st source
              rw [hcre] at hc1
              simp at hc1
              cases ex1
              · simp only [] at h0
                obtain ⟨hc, hs, hcp⟩ := ih c s _ ex c2 s2 st2 h0
                refine ⟨hc, hs, ?_⟩
                rw [hcp]
                simp [hc1]
              · simp only [] at h0
                by_cases hr : (get_files_to_copy env st1 source destination).1 = []
                · rw [if_pos hr] at h0
                  by_cases hr2 : (get_cached_files env
                      (get_files_to_copy env st1 source destination).2 source
                      true).1 = []
                  · rw [if_pos hr2] at h0
                    obtain ⟨hc, hs, hcp⟩ := ih c s _ ex c2 s2 st2 h0
                    refine ⟨hc, hs, ?_⟩
                    rw [hcp]
                    simp [get_cached_files_copies, get_files_to_copy_copies, hc1]
                  · rw [if_neg hr2] at h0
                    obtain ⟨hc, hs, hcp⟩ := ih c s _ ex c2 s2 st2 h0
                    refine ⟨hc, hs, ?_⟩
                    rw [hcp]
                    simp [get_cached_files_copies, get_files_to_copy_copies, hc1]
                · rw [if_neg hr] at h0
                  obtain ⟨f, fs, hffs⟩ := List.exists_cons_of_ne_nil hr
                  rw [hffs] at h0
                  rw [fileLoop_deadline env (replace23 (env.clock 0)) source
                    destination fr f fs c s
                    (get_files_to_copy env st1 source destination).2
                    (hAll _)] at h0
                  simp only [Except.ok.injEq, Prod.mk.injEq] at h0
                  obtain ⟨-, hc, hs, hst⟩ := h0
                  refine ⟨hc.symm, hs.symm, ?_⟩
                  rw [← hst]
                  simp [get_files_to_copy_copies, hc1]
  · intro source destination rest c s st p fr f fs st2 hcap hp hprobe hplan
    have hcre : check_remote_exists env st source = (true, st.incListings) := by
      unfold check_remote_exists
      rw [hprobe]
      simp
    have hcp : st2.counts.copies = st.counts.copies := by
      have h := get_files_to_copy_copies env st.incListings source destination
      rw [hplan] at h
      simpa using h
    refine ⟨?_, hcp⟩
    simp only [processPairs]
    rw [hcap]
    simp only [unpack3]
    rw [if_neg (by simp), if_neg hp]
    simp only [hcre]
    rw [hplan]
    simp only [List.cons_ne_nil, if_neg, reduceIte]
    rw [fileLoop_deadline env (replace23 (env.clock 0)) source destination fr
      f fs c s st2 (hAll _)]

/-- State after deriving the plan of the pair (s:a, d:a) of `envC9` from
the post-existence-check state. -/
def st2C9 : RunState :=
  (get_files_to_copy envC9 RunState.init.incListings "s:a" "d:a").2

/-- Witness for C9 at a concrete input: `envC9` starts at 23:20 with a
constant clock; the single pair (s:a, d:a) has 50 percent free space, an
existing source and the non-empty plan `[fA]`, and the run returns the
deadline exit with totals 0/0 after the diff work. -/
theorem C9_late_start_witness :
    processPairs envC9 (replace23 (envC9.clock 0)) [("s:a", "d:a")] 0 0
        RunState.init
      = Except.ok (RunExit.deadline, 0, 0, st2C9.nextTick)
    ∧ st2C9.counts.copies = RunState.init.counts.copies := by
  have h := (C9_late_start envC9 (fun i j _ => Or.inr ⟨rfl, le_rfl⟩)
      (by decide)).2
    "s:a" "d:a" [] 0 0 RunState.init _ _ fA [] st2C9 rfl
    (by norm_num) rfl rfl
  exact h

/-- Witness for C8 at a concrete input: `envC8`'s destination reports
15/1000 free, i.e. 1.5 percent. -/
theorem C8_low_space_short_circuit_witness :
    processPairs envC8 ⟨0, 1380⟩ [("src:a", "d:a")] 0 0 RunState.init
      = processPairs envC8 ⟨0, 1380⟩ [] 0 0
          (RunState.init.logError ("free space below 2 percent on " ++ "d:a"))
    ∧ (RunState.init.logError ("free space below 2 percent on " ++ "d:a")).counts
        = RunState.init.counts
    ∧ (RunState.init.logError ("free space below 2 percent on " ++ "d:a")).cache
        = RunState.init.cache :=
  C8_low_space_short_circuit envC8 ⟨0, 1380⟩ "src:a" "d:a" [] 0 0 RunState.init
    _ _ rfl (by norm_num)
